import Mathlib

set_option maxHeartbeats 1000000

/-! ## Definitions -/

/-!
Verification of the backup/restore operator's execution pipeline.

This file shallowly embeds the status state machine, the storage-location
resolver, the backup worker's status writes, the archive codec, the resource
sanitizer, the priority sort shared by the export and apply engines, the
namespace-scope resolver, and the restore apply engine, and proves or refutes
the specification's claims about them.

Go maps of `map[string]T` are embedded as association lists with the three
primitive operations the source uses: lookup, delete and assignment.
Effectful calls (cluster API, filesystem, object storage) are passed in as
explicit `Except`/`Option` results so every status-affecting control path of
the source is represented.
-/

/-! ## Association-list primitives (embedding of Go string-keyed maps) -/

/-- Embedding of a Go map read `m[k]`: first binding for the key, if any. -/
def lookupKey {α : Type} (k : String) : List (String × α) → Option α
  | [] => none
  | (k', v) :: rest => if k' = k then some v else lookupKey k rest

/-- Embedding of Go `delete(m, k)`: remove every binding for the key. -/
def eraseKey {α : Type} (k : String) (l : List (String × α)) : List (String × α) :=
  l.filter (fun kv => kv.1 ≠ k)

/-- Embedding of Go `m[k] = v`: replace the first binding in place, else append. -/
def setKey {α : Type} (k : String) (v : α) : List (String × α) → List (String × α)
  | [] => [(k, v)]
  | (k', v') :: rest => if k' = k then (k, v) :: rest else (k', v') :: setKey k v rest

/-! ## Status data model (api/v1alpha1/common_types.go) -/

/-- Lifecycle phase of a backup request (`BackupPhase`). -/
inductive BackupPhase where
  | pending
  | running
  | completed
  | failed
deriving DecidableEq, Repr

/-- Lifecycle phase of a restore request (`RestorePhase`). -/
inductive RestorePhase where
  | pending
  | running
  | completed
  | failed
deriving DecidableEq, Repr

/-- Embedding of `BackupStatus`. Timestamps are abstract ticks; conditions are
kept abstract as a list of strings (the code never inspects them). -/
structure BackupStatus where
  phase : BackupPhase
  conditions : List String
  startedAt : Option Nat
  completedAt : Option Nat
  artifactLocation : String
  observedGeneration : Int
  message : String
deriving DecidableEq, Repr

/-- Embedding of `RestoreStatus`. -/
structure RestoreStatus where
  phase : RestorePhase
  conditions : List String
  startedAt : Option Nat
  completedAt : Option Nat
  observedGeneration : Int
  message : String
deriving DecidableEq, Repr

/-- Embedding of `failedBackupStatus` (cmd/worker_backup.go): start from the
current status, set Phase to Failed, Message, CompletedAt to now; the source's
`current.ObservedGeneration = current.ObservedGeneration` is a self-assignment. -/
def failedBackupStatus (current : BackupStatus) (message : String) (now : Nat) : BackupStatus :=
  { current with
    phase := BackupPhase.failed
    message := message
    completedAt := some now }

/-- Embedding of `failedRestoreStatus` (cmd/worker_restore.go). -/
def failedRestoreStatus (current : RestoreStatus) (message : String) (now : Nat) : RestoreStatus :=
  { current with
    phase := RestorePhase.failed
    message := message
    completedAt := some now }

/-! ## Dispatcher terminal-observation step (controllers)

The four reconcilers share this logic verbatim: when a worker job exists,
`job.Status.Succeeded > 0 && phase != Completed` marks Completed, then
`job.Status.Failed > 0 && phase != Failed` marks Failed via the
`fail...` helper (which also sets Message and CompletedAt). The second test
reads the in-memory status written by the first. -/

/-- Embedding of the job-observation tail of `BackupReconciler.Reconcile` /
`ClusterBackupReconciler.Reconcile` (the two `if` statements on the found job),
including the `failBackup` status write. -/
def reconcileObserveBackup (status : BackupStatus) (succeeded failed : Nat)
    (generation : Int) (now : Nat) : BackupStatus :=
  let s1 :=
    if succeeded > 0 ∧ status.phase ≠ BackupPhase.completed then
      { status with phase := BackupPhase.completed, observedGeneration := generation }
    else status
  if failed > 0 ∧ s1.phase ≠ BackupPhase.failed then
    { s1 with
      phase := BackupPhase.failed
      message := "backup job failed"
      completedAt := some now
      observedGeneration := generation }
  else s1

/-- Embedding of the job-observation tail of `ClusterRestoreReconciler.Reconcile`
(and the Restore counterpart), including the `failClusterRestore` status write. -/
def reconcileObserveRestore (status : RestoreStatus) (succeeded failed : Nat)
    (generation : Int) (now : Nat) : RestoreStatus :=
  let s1 :=
    if succeeded > 0 ∧ status.phase ≠ RestorePhase.completed then
      { status with phase := RestorePhase.completed, observedGeneration := generation }
    else status
  if failed > 0 ∧ s1.phase ≠ RestorePhase.failed then
    { s1 with
      phase := RestorePhase.failed
      message := "restore job failed"
      completedAt := some now
      observedGeneration := generation }
  else s1

/-! ## Storage locations and the resolver (internal/resolve/storage.go) -/

/-- Connection parameters of a storage backend (`BackupStorageLocationSpec.S3`/`NFS`,
reduced to the fields the worker's artifact-location construction reads). -/
inductive StorageBackend where
  | s3 (bucket : String) (prefixPath : String)
  | nfs (server : String) (exportPath : String)
deriving DecidableEq, Repr

/-- Embedding of `BackupStorageLocation`: name, `Spec.Default`, and the typed
backend parameters. -/
structure BackupStorageLocation where
  locName : String
  isDefault : Bool
  backend : StorageBackend
deriving DecidableEq, Repr

/-- Embedding of `resolve.StorageLocation`. The two cluster reads are passed in:
`fetch` models `c.Get` by name, `listRes` models `c.List` of all locations. -/
def resolveStorageLocation (fetch : String → Except String BackupStorageLocation)
    (listRes : Except String (List BackupStorageLocation)) (name : String) :
    Except String BackupStorageLocation :=
  if name ≠ "" then fetch name
  else
    match listRes with
    | Except.error e => Except.error e
    | Except.ok items =>
      match items with
      | [] => Except.error "no BackupStorageLocation found"
      | _ :: _ =>
        match items.find? (fun l => l.isDefault) with
        | some loc => Except.ok loc
        | none =>
          match items with
          | [only] => Except.ok only
          | _ => Except.error "no default BackupStorageLocation set"

/-! ## Backup worker status writes (cmd/worker_backup.go, cmd/worker_storage.go) -/

/-- Embedding of Go `path.Join` restricted to how the worker uses it: empty
components are dropped, the rest are joined with a slash (the worker's
components carry no stray slashes except a leading one on the NFS export path,
which `path.Join` preserves). -/
def pathJoin (parts : List String) : String :=
  String.intercalate "/" (parts.filter (fun s => s ≠ ""))

/-- Embedding of `namespaceSegment` (cmd/worker_storage.go). -/
def namespaceSegment (ns : String) : String :=
  if ns = "" then "cluster" else ns

/-- Fixed artifact file name (`artifactFileName`). -/
def artifactFileName : String := "backup.tar.gz"

/-- Embedding of `storeArtifact` (cmd/worker_storage.go): builds the relative
key `clusterID/lower(kind)/namespaceSegment/name/timestamp`, uploads, and
returns the location URI. The upload / config I/O outcome is the explicit
`ioErr` input (covers `loadS3Config`, `uploadToS3`, `storeToNFS` failures). -/
def storeArtifact (storage : BackupStorageLocation) (kind ns name : String)
    (clusterIDv timestamp : String) (ioErr : Option String) : Except String String :=
  let relativeBase := pathJoin [clusterIDv, kind.toLower, namespaceSegment ns, name, timestamp]
  match ioErr with
  | some e => Except.error e
  | none =>
    match storage.backend with
    | StorageBackend.s3 bucket prefixPath =>
      Except.ok ("s3://" ++ bucket ++ "/" ++ pathJoin [prefixPath, relativeBase, artifactFileName])
    | StorageBackend.nfs server exportPath =>
      Except.ok ("nfs://" ++ server ++ pathJoin [exportPath, relativeBase, artifactFileName])

/-- The identity of a loaded backup object plus its current status
(`backupObject` in cmd/worker_backup.go, reduced to the fields the worker's
status writes read). -/
structure BackupObjectModel where
  kind : String
  name : String
  namespaceName : String
  status : BackupStatus
deriving Repr

/-- Outcomes of the effectful steps of `runBackupWorker`, in source order.
`mkTempErr` models `os.MkdirTemp` failing (the worker returns the error
without writing status). -/
structure BackupWorkerEnv where
  now : Nat
  timestamp : String
  clusterIDv : String
  storageRes : Except String BackupStorageLocation
  mkTempErr : Bool
  resourcesRes : Except String (List Nat)
  snapshotsRes : Except String (List Nat)
  metadataRes : Except String (List Nat)
  tarErr : Option String
  storeErr : Option String

/-- Embedding of `runBackupWorker` (cmd/worker_backup.go): the status value the
worker hands to `updateStatus` on each return path; on the `os.MkdirTemp`
failure path the worker returns without a status write, so the status is
unchanged. -/
def runBackupWorker (env : BackupWorkerEnv) (backup : BackupObjectModel) : BackupStatus :=
  match env.storageRes with
  | Except.error e => failedBackupStatus backup.status e env.now
  | Except.ok storage =>
    if env.mkTempErr then backup.status
    else
      match env.resourcesRes with
      | Except.error e => failedBackupStatus backup.status e env.now
      | Except.ok _ =>
        match env.snapshotsRes with
        | Except.error e => failedBackupStatus backup.status e env.now
        | Except.ok _ =>
          match env.metadataRes with
          | Except.error e => failedBackupStatus backup.status e env.now
          | Except.ok _ =>
            match env.tarErr with
            | some e => failedBackupStatus backup.status e env.now
            | none =>
              match storeArtifact storage backup.kind backup.namespaceName backup.name
                  env.clusterIDv env.timestamp env.storeErr with
              | Except.error e => failedBackupStatus backup.status e env.now
              | Except.ok location =>
                { backup.status with
                  phase := BackupPhase.completed
                  completedAt := some env.now
                  artifactLocation := location
                  message := "backup completed" }

/-! ## Archive codec (writeTarGz / extractTarGz) -/

/-- One tar entry: the header's Name and Size plus the written bytes. -/
structure TarEntry where
  name : String
  size : Nat
  data : List Nat
deriving DecidableEq, Repr

/-- Embedding of `writeTarGz` (cmd/worker_backup.go): every map entry becomes a
tar member whose header size is the content length, content written verbatim.
Every member is written, including zero-length ones. -/
def writeTarGz (files : List (String × List Nat)) : List TarEntry :=
  files.map (fun kv => { name := kv.1, size := kv.2.length, data := kv.2 })

/-- Embedding of `extractTarGz` (cmd/worker_restore.go): walk the entries in
order, skip any whose header size is zero (`if head.Size == 0 { continue }`),
read exactly `Size` bytes for the rest, store into the result map. -/
def extractTarGz (entries : List TarEntry) : List (String × List Nat) :=
  entries.foldl
    (fun acc e => if e.size = 0 then acc else setKey e.name (e.data.take e.size) acc) []

/-! ## Unstructured resource documents

An `unstructured.Unstructured` object is a `map[string]any` tree. Sanitization
and the apply engine only ever distinguish three shapes of value: a string (for
`kind`, `namespace`, `resourceVersion`), a nested map, and anything else
(numbers, arrays, booleans), which they treat opaquely. -/

/-- A value inside an unstructured object. -/
inductive UVal where
  | str (s : String) : UVal
  | map (fields : List (String × UVal)) : UVal
  | leaf (tag : Nat) : UVal

/-- An unstructured object: its top-level field map. -/
def UObj : Type := List (String × UVal)

/-- Embedding of `obj.GetKind()`: the top-level `kind` field as a string, or
the empty string. -/
def getKind (o : UObj) : String :=
  match lookupKey "kind" o with
  | some (UVal.str s) => s
  | _ => ""

/-- Embedding of `unstructured.RemoveNestedField(obj, f1, f2)`: if `obj[f1]`
is a map, delete `f2` inside it; otherwise no-op. -/
def removeNested2 (f1 f2 : String) (o : UObj) : UObj :=
  match lookupKey f1 o with
  | some (UVal.map m) => setKey f1 (UVal.map (eraseKey f2 m)) o
  | _ => o

/-- The well-known annotation dropped by sanitization. -/
def lastAppliedKey : String := "kubectl.kubernetes.io/last-applied-configuration"

/-- Embedding of the metadata-cleaning block of `sanitizeObject`: delete the six
bookkeeping keys, then drop the last-applied annotation if the `annotations`
value is a map. -/
def sanitizeMetadata (m : List (String × UVal)) : List (String × UVal) :=
  let m1 := eraseKey "uid" m
  let m2 := eraseKey "resourceVersion" m1
  let m3 := eraseKey "generation" m2
  let m4 := eraseKey "managedFields" m3
  let m5 := eraseKey "selfLink" m4
  let m6 := eraseKey "creationTimestamp" m5
  match lookupKey "annotations" m6 with
  | some (UVal.map a) => setKey "annotations" (UVal.map (eraseKey lastAppliedKey a)) m6
  | _ => m6

/-- Embedding of `sanitizeObject` (cmd/worker_backup.go): remove `status`;
if `metadata` is a map, clean it and write it back; for Service objects
additionally remove the cluster IP fields and health-check node port. -/
def sanitizeObject (o : UObj) : UObj :=
  let o1 := eraseKey "status" o
  let o2 :=
    match lookupKey "metadata" o1 with
    | some (UVal.map m) => setKey "metadata" (UVal.map (sanitizeMetadata m)) o1
    | _ => o1
  if getKind o2 = "Service" then
    removeNested2 "spec" "healthCheckNodePort"
      (removeNested2 "spec" "clusterIPs"
        (removeNested2 "spec" "clusterIP" o2))
  else o2

/-! ## Priority table and the stable sorts (worker_backup.go / worker_restore.go) -/

/-- Embedding of `resourcePriority` (cmd/worker_backup.go), shared by both
engines. -/
def resourcePriority (o : UObj) : Nat :=
  match getKind o with
  | "Namespace" => 0
  | "CustomResourceDefinition" => 1
  | "ClusterRole" | "ClusterRoleBinding" | "Role" | "RoleBinding" => 2
  | "ServiceAccount" => 3
  | "PersistentVolume" | "StorageClass" | "VolumeSnapshotClass" => 4
  | "PersistentVolumeClaim" => 5
  | "ConfigMap" | "Secret" => 6
  | "Deployment" | "StatefulSet" | "DaemonSet" | "Job" | "CronJob" => 7
  | "Service" | "Ingress" | "Route" => 8
  | _ => 100

/-- Embedding of the export engine's `sort.SliceStable(selected, ...)` in
`exportResources`: a stable sort by `resourcePriority`. -/
def exportSortResources (docs : List UObj) : List UObj :=
  docs.mergeSort (fun a b => resourcePriority a ≤ resourcePriority b)

/-- Embedding of the apply engine's `sort.SliceStable(resources, ...)` in
`applyResources`: the identical stable sort by `resourcePriority`. -/
def applySortResources (docs : List UObj) : List UObj :=
  docs.mergeSort (fun a b => resourcePriority a ≤ resourcePriority b)

/-! ## Namespace-scope resolution (resolveNamespaces, cmd/worker_backup.go) -/

/-- Embedding of `NamespaceSelector` (api/v1alpha1/common_types.go). -/
structure NamespaceSelector where
  included : List String
  excluded : List String
deriving DecidableEq, Repr

/-- Embedding of `resolveNamespaces` (cmd/worker_backup.go). `kind` and
`ownNamespace` come from the loaded backup object; `clusterNamespaces` is the
result of the cluster's namespace list call. -/
def resolveNamespaces (kind : String) (ownNamespace : String)
    (selector : Option NamespaceSelector) (clusterNamespaces : List String) : List String :=
  if kind = "Backup" then [ownNamespace]
  else
    let base :=
      match selector with
      | some sel => if sel.included.length > 0 then sel.included else clusterNamespaces
      | none => clusterNamespaces
    let filtered :=
      match selector with
      | some sel =>
        if sel.excluded.length > 0 then
          base.filter (fun ns => ¬ sel.excluded.contains ns)
        else base
      | none => base
    filtered.mergeSort (fun a b => a ≤ b)

/-! ## Restore apply engine (applyResources, cmd/worker_restore.go) -/

/-- Embedding of `shouldSkipKind` (cmd/worker_backup.go), also used by the apply
loop. -/
def shouldSkipKind (kind : String) : Bool :=
  match kind with
  | "Event" | "Lease" | "ControllerRevision" | "ReplicaSet" | "Pod"
  | "EndpointSlice" | "Endpoints" | "Binding" => true
  | _ => false

/-- Embedding of `obj.GetNamespace()`: `metadata.namespace` as a string, else
the empty string. -/
def getNamespace (o : UObj) : String :=
  match lookupKey "metadata" o with
  | some (UVal.map m) =>
    match lookupKey "namespace" m with
    | some (UVal.str s) => s
    | _ => ""
  | _ => ""

/-- Embedding of `obj.SetNamespace(ns)`: with a non-empty value, write
`metadata.namespace` (creating `metadata` if needed); with the empty string the
accessor removes the field. -/
def setNamespace (ns : String) (o : UObj) : UObj :=
  if ns = "" then removeNested2 "metadata" "namespace" o
  else
    match lookupKey "metadata" o with
    | some (UVal.map m) => setKey "metadata" (UVal.map (setKey "namespace" (UVal.str ns) m)) o
    | _ => setKey "metadata" (UVal.map [("namespace", UVal.str ns)]) o

/-- Embedding of `obj.SetResourceVersion(rv)`: the empty string removes
`metadata.resourceVersion`, a non-empty one writes it. -/
def setResourceVersion (rv : String) (o : UObj) : UObj :=
  if rv = "" then removeNested2 "metadata" "resourceVersion" o
  else
    match lookupKey "metadata" o with
    | some (UVal.map m) =>
      setKey "metadata" (UVal.map (setKey "resourceVersion" (UVal.str rv) m)) o
    | _ => setKey "metadata" (UVal.map [("resourceVersion", UVal.str rv)]) o

/-- Embedding of the target-namespace computation inside `applyResources`
(cmd/worker_restore.go lines 292-301): start from the document's own namespace,
override with the default namespace when one is set, then override with the
remap-table entry for the original namespace when one exists. -/
def computeTargetNamespace (origNs defaultNamespace : String)
    (mapping : Option (List (String × String))) : String :=
  let t1 := if defaultNamespace ≠ "" then defaultNamespace else origNs
  match mapping with
  | some m =>
    match lookupKey origNs m with
    | some mapped => mapped
    | none => t1
  | none => t1

/-- Outcome of the dynamic `Create` call for one document. -/
inductive CreateResult where
  | ok
  | alreadyExists
  | otherErr (msg : String)
deriving DecidableEq, Repr

/-- Outcomes of the effectful calls made for one document of the apply loop.
`restMapping = none` models a `mapper.RESTMapping` error (the document is
skipped); `getExisting` models the `Get` issued on an already-exists conflict,
returning the current object's resource version. -/
structure DocEnv where
  ensureNamespaceErr : Option String
  restMapping : Option Bool
  createResult : CreateResult
  getExisting : Except String String
  updateErr : Option String
deriving Repr

/-- A write the apply loop performed against the target cluster. -/
inductive ApplyAction where
  | created (obj : UObj)
  | replaced (obj : UObj)

/-- Embedding of one iteration of the apply loop in `applyResources`
(cmd/worker_restore.go lines 283-334): skip empty documents and denylisted
kinds, re-sanitize, remap the namespace and ensure it exists, resolve the REST
mapping (skipping unmappable types), clear the version token, create, and on
already-exists fetch the current version token and update. `Except.ok`
returns the performed actions; `Except.error` aborts the whole restore. -/
def applyOneDocument (env : DocEnv) (mapping : Option (List (String × String)))
    (defaultNamespace : String) (obj : UObj) : Except String (List ApplyAction) :=
  if List.isEmpty obj then Except.ok []
  else if shouldSkipKind (getKind obj) then Except.ok []
  else
    let obj1 := sanitizeObject obj
    let nsStep : Except String UObj :=
      if getNamespace obj1 ≠ "" then
        let target := computeTargetNamespace (getNamespace obj1) defaultNamespace mapping
        let obj2 := setNamespace target obj1
        match env.ensureNamespaceErr with
        | some e => Except.error e
        | none => Except.ok obj2
      else Except.ok obj1
    match nsStep with
    | Except.error e => Except.error e
    | Except.ok obj2 =>
      match env.restMapping with
      | none => Except.ok []
      | some _ =>
        let obj3 := setResourceVersion "" obj2
        match env.createResult with
        | CreateResult.ok => Except.ok [ApplyAction.created obj3]
        | CreateResult.otherErr e => Except.error e
        | CreateResult.alreadyExists =>
          match env.getExisting with
          | Except.error g => Except.error g
          | Except.ok rv =>
            let obj4 := setResourceVersion rv obj3
            match env.updateErr with
            | some e => Except.error e
            | none => Except.ok [ApplyAction.replaced obj4]

/-- Embedding of the whole apply loop: documents (already priority-sorted)
paired with their effect outcomes, applied in order with fail-fast abort on the
first error. -/
def applyResourcesLoop (mapping : Option (List (String × String)))
    (defaultNamespace : String) : List (UObj × DocEnv) → Except String (List ApplyAction)
  | [] => Except.ok []
  | (obj, env) :: rest =>
    match applyOneDocument env mapping defaultNamespace obj with
    | Except.error e => Except.error e
    | Except.ok acts =>
      match applyResourcesLoop mapping defaultNamespace rest with
      | Except.error e => Except.error e
      | Except.ok more => Except.ok (acts ++ more)

/-! ## Claims -/

/-- A concrete document set holding a Deployment, a ConfigMap and a Namespace,
in reverse priority order. -/
def samplePriorityDocs : List UObj :=
  [[("kind", UVal.str "Deployment")], [("kind", UVal.str "ConfigMap")],
   [("kind", UVal.str "Namespace")]]

/-! ## Sanitization idempotence -/

/-- A metadata map in sanitized form: none of the six bookkeeping keys, and no
last-applied annotation inside a map-valued `annotations` field. -/
def MetaClean (m : List (String × UVal)) : Prop :=
  lookupKey "uid" m = none ∧
  lookupKey "resourceVersion" m = none ∧
  lookupKey "generation" m = none ∧
  lookupKey "managedFields" m = none ∧
  lookupKey "selfLink" m = none ∧
  lookupKey "creationTimestamp" m = none ∧
  (match lookupKey "annotations" m with
   | some (UVal.map a) => lookupKey lastAppliedKey a = none
   | _ => True)

/-- A spec map in sanitized form for Service objects: no cluster IP fields and
no health-check node port. -/
def SpecClean (o : UObj) : Prop :=
  match lookupKey "spec" o with
  | some (UVal.map sp) =>
    lookupKey "clusterIP" sp = none ∧ lookupKey "clusterIPs" sp = none ∧
    lookupKey "healthCheckNodePort" sp = none
  | _ => True

/-- An object in sanitized form. -/
def ObjClean (o : UObj) : Prop :=
  lookupKey "status" o = none ∧
  (match lookupKey "metadata" o with
   | some (UVal.map m) => MetaClean m
   | _ => True) ∧
  (getKind o = "Service" → SpecClean o)

/-- The metadata-rewriting stage of `sanitizeObject`, factored out. -/
def sanitizeStage2 (o1 : UObj) : UObj :=
  match lookupKey "metadata" o1 with
  | some (UVal.map m) => setKey "metadata" (UVal.map (sanitizeMetadata m)) o1
  | _ => o1

/-- The Service-specific stage of `sanitizeObject`, factored out. -/
def sanitizeStage3 (o2 : UObj) : UObj :=
  if getKind o2 = "Service" then
    removeNested2 "spec" "healthCheckNodePort"
      (removeNested2 "spec" "clusterIPs" (removeNested2 "spec" "clusterIP" o2))
  else o2

/-! ## Theorems -/

theorem lookupKey_eraseKey {α : Type} (k k' : String) (l : List (String × α)) :
    lookupKey k (eraseKey k' l) = if k = k' then none else lookupKey k l := by
  induction l with
  | nil => simp [lookupKey, eraseKey]
  | cons kv rest ih =>
    obtain ⟨a, v⟩ := kv
    by_cases hk : a = k'
    · subst hk
      by_cases hkk : k = a
      · subst hkk
        simpa [lookupKey, eraseKey] using ih
      · simpa [lookupKey, eraseKey, Ne.symm hkk] using ih
    · by_cases hak : a = k
      · subst hak
        by_cases hkk : a = k' <;> simp_all [lookupKey, eraseKey]
      · simp_all [lookupKey, eraseKey]

theorem lookupKey_setKey {α : Type} (k k' : String) (v : α) (l : List (String × α)) :
    lookupKey k (setKey k' v l) = if k = k' then some v else lookupKey k l := by
  induction l with
  | nil =>
    by_cases h : k = k'
    · simp [lookupKey, setKey, h]
    · simp [lookupKey, setKey, h, Ne.symm h]
  | cons kv rest ih =>
    obtain ⟨a, w⟩ := kv
    by_cases hk : a = k'
    · subst hk
      by_cases hkk : a = k
      · subst hkk
        simp [lookupKey, setKey]
      · simp [lookupKey, setKey, hkk, Ne.symm hkk]
    · by_cases hak : a = k
      · subst hak
        have hne : ¬ a = k' := hk
        simp [lookupKey, setKey, hk, hne]
      · simp [lookupKey, setKey, hk, hak, ih]

theorem eraseKey_eraseKey_self {α : Type} (k : String) (l : List (String × α)) :
    eraseKey k (eraseKey k l) = eraseKey k l := by
  simp [eraseKey, List.filter_filter]

theorem eraseKey_of_lookup_none {α : Type} {k : String} {l : List (String × α)}
    (h : lookupKey k l = none) : eraseKey k l = l := by
  induction l with
  | nil => rfl
  | cons kv rest ih =>
    obtain ⟨a, v⟩ := kv
    by_cases hak : a = k
    · simp [lookupKey, hak] at h
    · simp [lookupKey, hak] at h
      simp [eraseKey, hak, List.filter] at ih ⊢
      exact ih h

theorem setKey_of_lookup_some {α : Type} {k : String} {v : α} {l : List (String × α)}
    (h : lookupKey k l = some v) : setKey k v l = l := by
  induction l with
  | nil => simp [lookupKey] at h
  | cons kv rest ih =>
    obtain ⟨a, w⟩ := kv
    by_cases hak : a = k
    · subst hak
      simp [lookupKey] at h
      simp [setKey, h]
    · simp [lookupKey, hak] at h
      simp [setKey, hak, ih h]

/-- C10: `failedBackupStatus` and `failedRestoreStatus` change only Phase (to
Failed), Message, and CompletedAt; StartedAt, ArtifactLocation, Conditions and
ObservedGeneration retain their prior values. -/
theorem failed_status_constructors_frame (b : BackupStatus) (r : RestoreStatus)
    (msgB msgR : String) (nowB nowR : Nat) :
    (failedBackupStatus b msgB nowB).startedAt = b.startedAt ∧
    (failedBackupStatus b msgB nowB).artifactLocation = b.artifactLocation ∧
    (failedBackupStatus b msgB nowB).conditions = b.conditions ∧
    (failedBackupStatus b msgB nowB).observedGeneration = b.observedGeneration ∧
    (failedBackupStatus b msgB nowB).phase = BackupPhase.failed ∧
    (failedBackupStatus b msgB nowB).message = msgB ∧
    (failedBackupStatus b msgB nowB).completedAt = some nowB ∧
    (failedRestoreStatus r msgR nowR).startedAt = r.startedAt ∧
    (failedRestoreStatus r msgR nowR).conditions = r.conditions ∧
    (failedRestoreStatus r msgR nowR).observedGeneration = r.observedGeneration ∧
    (failedRestoreStatus r msgR nowR).phase = RestorePhase.failed ∧
    (failedRestoreStatus r msgR nowR).message = msgR ∧
    (failedRestoreStatus r msgR nowR).completedAt = some nowR := by
  refine ⟨rfl, rfl, rfl, rfl, rfl, rfl, rfl, rfl, rfl, rfl, rfl, rfl, rfl⟩

/-- C4: storage-location resolution with no explicit name: zero locations is an
error; a single location with the default flag unset is returned; two
non-default locations are an error; of two locations with exactly one default,
the default wins (either position); an explicit name goes through the by-name
fetch, whose result (including any error) is returned as is. -/
theorem storage_resolution_cases
    (fetch : String → Except String BackupStorageLocation)
    (listRes : Except String (List BackupStorageLocation))
    (l1 l2 : BackupStorageLocation) (name : String) :
    (resolveStorageLocation fetch (Except.ok []) "" =
       Except.error "no BackupStorageLocation found") ∧
    (l1.isDefault = false →
       resolveStorageLocation fetch (Except.ok [l1]) "" = Except.ok l1) ∧
    (l1.isDefault = false → l2.isDefault = false →
       resolveStorageLocation fetch (Except.ok [l1, l2]) "" =
         Except.error "no default BackupStorageLocation set") ∧
    (l1.isDefault = true → l2.isDefault = false →
       resolveStorageLocation fetch (Except.ok [l1, l2]) "" = Except.ok l1) ∧
    (l1.isDefault = false → l2.isDefault = true →
       resolveStorageLocation fetch (Except.ok [l1, l2]) "" = Except.ok l2) ∧
    (name ≠ "" → resolveStorageLocation fetch listRes name = fetch name) := by
  refine ⟨rfl, ?_, ?_, ?_, ?_, ?_⟩
  · intro h1
    simp [resolveStorageLocation, List.find?, h1]
  · intro h1 h2
    simp [resolveStorageLocation, List.find?, h1, h2]
  · intro h1 h2
    simp [resolveStorageLocation, List.find?, h1, h2]
  · intro h1 h2
    simp [resolveStorageLocation, List.find?, h1, h2]
  · intro h
    simp [resolveStorageLocation, h]

/-- Witness for C4 at concrete locations. -/
theorem storage_resolution_cases_witness :
    resolveStorageLocation (fun _ => Except.error "not found")
        (Except.ok [{ locName := "a", isDefault := false,
                      backend := StorageBackend.s3 "b" "" },
                    { locName := "c", isDefault := true,
                      backend := StorageBackend.nfs "srv" "/export" }]) "" =
      Except.ok { locName := "c", isDefault := true,
                  backend := StorageBackend.nfs "srv" "/export" } :=
  (storage_resolution_cases (fun _ => Except.error "not found")
    (Except.ok [])
    { locName := "a", isDefault := false, backend := StorageBackend.s3 "b" "" }
    { locName := "c", isDefault := true, backend := StorageBackend.nfs "srv" "/export" }
    "x").2.2.2.2.1 rfl rfl

/-- C3 counterexample: with original namespace `a`, default-namespace override
`d`, and remap table `a ↦ m`, the code maps the document to `m`, not to the
default override `d` the claim requires. -/
theorem namespace_precedence_counterexample :
    computeTargetNamespace "a" "d" (some [("a", "m")]) = "m" ∧ ("m" : String) ≠ "d" := by
  exact ⟨rfl, by decide⟩

/-- C3 amended: the target namespace for a namespaced document follows the
precedence remap-table entry for the original namespace first, then the
default-namespace override when the restore is namespace-scoped, then the
original namespace unchanged; in particular, when both a default override and
a matching remap entry exist, the remap entry wins. -/
theorem namespace_precedence (origNs defaultNamespace : String)
    (m : List (String × String)) :
    (∀ mapped, lookupKey origNs m = some mapped →
       computeTargetNamespace origNs defaultNamespace (some m) = mapped) ∧
    (lookupKey origNs m = none → defaultNamespace ≠ "" →
       computeTargetNamespace origNs defaultNamespace (some m) = defaultNamespace) ∧
    (lookupKey origNs m = none → defaultNamespace = "" →
       computeTargetNamespace origNs defaultNamespace (some m) = origNs) ∧
    (defaultNamespace ≠ "" →
       computeTargetNamespace origNs defaultNamespace none = defaultNamespace) ∧
    (defaultNamespace = "" →
       computeTargetNamespace origNs defaultNamespace none = origNs) := by
  refine ⟨?_, ?_, ?_, ?_, ?_⟩
  · intro mapped h
    simp [computeTargetNamespace, h]
  · intro h hd
    simp [computeTargetNamespace, h, hd]
  · intro h hd
    simp [computeTargetNamespace, h, hd]
  · intro hd
    simp [computeTargetNamespace, hd]
  · intro hd
    simp [computeTargetNamespace, hd]

/-- Witness for the amended C3 at concrete inputs. -/
theorem namespace_precedence_witness :
    computeTargetNamespace "a" "d" (some [("a", "m")]) = "m" ∧
    computeTargetNamespace "b" "d" (some [("a", "m")]) = "d" ∧
    computeTargetNamespace "b" "" (some [("a", "m")]) = "b" :=
  ⟨(namespace_precedence "a" "d" [("a", "m")]).1 "m" rfl,
   (namespace_precedence "b" "d" [("a", "m")]).2.1 rfl (by decide),
   (namespace_precedence "b" "" [("a", "m")]).2.2.1 rfl rfl⟩

/-- C1 counterexample: a dispatcher reconcile that observes a succeeded worker
job moves a status already set to Failed to Completed, and one that observes a
failed job moves a status already set to Completed to Failed. -/
theorem phase_monotonic_counterexample :
    (reconcileObserveBackup
      { phase := BackupPhase.failed, conditions := [], startedAt := some 1,
        completedAt := some 2, artifactLocation := "", observedGeneration := 1,
        message := "backup job failed" } 1 0 1 3).phase = BackupPhase.completed ∧
    (reconcileObserveBackup
      { phase := BackupPhase.completed, conditions := [], startedAt := some 1,
        completedAt := some 2, artifactLocation := "s3://b/k", observedGeneration := 1,
        message := "backup completed" } 0 1 1 3).phase = BackupPhase.failed := by
  constructor <;> rfl

theorem reconcileObserveBackup_phase (s : BackupStatus) (succeeded failed : Nat)
    (generation : Int) (now : Nat) :
    (reconcileObserveBackup s succeeded failed generation now).phase =
      if 0 < failed then BackupPhase.failed
      else if 0 < succeeded then BackupPhase.completed
      else s.phase := by
  unfold reconcileObserveBackup
  by_cases hf : 0 < failed <;> by_cases hsucc : 0 < succeeded <;>
    by_cases hpc : s.phase = BackupPhase.completed <;>
    by_cases hpf : s.phase = BackupPhase.failed <;>
    simp_all

theorem reconcileObserveRestore_phase (s : RestoreStatus) (succeeded failed : Nat)
    (generation : Int) (now : Nat) :
    (reconcileObserveRestore s succeeded failed generation now).phase =
      if 0 < failed then RestorePhase.failed
      else if 0 < succeeded then RestorePhase.completed
      else s.phase := by
  unfold reconcileObserveRestore
  by_cases hf : 0 < failed <;> by_cases hsucc : 0 < succeeded <;>
    by_cases hpc : s.phase = RestorePhase.completed <;>
    by_cases hpf : s.phase = RestorePhase.failed <;>
    simp_all

/-- C1 amended: the dispatcher's terminal-observation step never moves a phase
to Pending or Running (a no-op when the job shows neither success nor failure,
and a terminal phase stays terminal), but it is not monotonic between the two
terminal phases: any observation with a failure counter ends Failed, even from
Completed, and a success-only observation ends Completed, even from Failed. -/
theorem phase_terminal_observation (st : BackupStatus) (rt : RestoreStatus)
    (succeeded failed : Nat) (generation : Int) (now : Nat) :
    (succeeded = 0 → failed = 0 →
       reconcileObserveBackup st succeeded failed generation now = st) ∧
    (failed > 0 →
       (reconcileObserveBackup st succeeded failed generation now).phase = BackupPhase.failed) ∧
    (succeeded > 0 → failed = 0 →
       (reconcileObserveBackup st succeeded failed generation now).phase =
         BackupPhase.completed) ∧
    ((st.phase = BackupPhase.completed ∨ st.phase = BackupPhase.failed) →
       ((reconcileObserveBackup st succeeded failed generation now).phase =
          BackupPhase.completed ∨
        (reconcileObserveBackup st succeeded failed generation now).phase =
          BackupPhase.failed)) ∧
    (succeeded = 0 → failed = 0 →
       reconcileObserveRestore rt succeeded failed generation now = rt) ∧
    (failed > 0 →
       (reconcileObserveRestore rt succeeded failed generation now).phase =
         RestorePhase.failed) ∧
    (succeeded > 0 → failed = 0 →
       (reconcileObserveRestore rt succeeded failed generation now).phase =
         RestorePhase.completed) ∧
    ((rt.phase = RestorePhase.completed ∨ rt.phase = RestorePhase.failed) →
       ((reconcileObserveRestore rt succeeded failed generation now).phase =
          RestorePhase.completed ∨
        (reconcileObserveRestore rt succeeded failed generation now).phase =
          RestorePhase.failed)) := by
  refine ⟨?_, ?_, ?_, ?_, ?_, ?_, ?_, ?_⟩
  · intro hs hf
    simp [reconcileObserveBackup, hs, hf]
  · intro hf
    rw [reconcileObserveBackup_phase]
    simp [hf]
  · intro hs hf
    rw [reconcileObserveBackup_phase]
    simp [hs, hf]
  · intro hterm
    by_cases hf : 0 < failed
    · right
      rw [reconcileObserveBackup_phase]
      simp [hf]
    · by_cases hsucc : 0 < succeeded
      · left
        rw [reconcileObserveBackup_phase]
        simp [hf, hsucc]
      · simpa [reconcileObserveBackup_phase, hf, hsucc] using hterm
  · intro hs hf
    simp [reconcileObserveRestore, hs, hf]
  · intro hf
    rw [reconcileObserveRestore_phase]
    simp [hf]
  · intro hs hf
    rw [reconcileObserveRestore_phase]
    simp [hs, hf]
  · intro hterm
    by_cases hf : 0 < failed
    · right
      rw [reconcileObserveRestore_phase]
      simp [hf]
    · by_cases hsucc : 0 < succeeded
      · left
        rw [reconcileObserveRestore_phase]
        simp [hf, hsucc]
      · simpa [reconcileObserveRestore_phase, hf, hsucc] using hterm

/-- Witness for the amended C1 at concrete statuses and job counters. -/
theorem phase_terminal_observation_witness :
    (reconcileObserveBackup
      { phase := BackupPhase.failed, conditions := [], startedAt := some 1,
        completedAt := some 2, artifactLocation := "", observedGeneration := 1,
        message := "m" } 1 0 1 3).phase = BackupPhase.completed ∧
    (reconcileObserveRestore
      { phase := RestorePhase.completed, conditions := [], startedAt := some 1,
        completedAt := some 2, observedGeneration := 1,
        message := "m" } 0 1 1 3).phase = RestorePhase.failed :=
  ⟨(phase_terminal_observation
      { phase := BackupPhase.failed, conditions := [], startedAt := some 1,
        completedAt := some 2, artifactLocation := "", observedGeneration := 1,
        message := "m" }
      { phase := RestorePhase.completed, conditions := [], startedAt := some 1,
        completedAt := some 2, observedGeneration := 1, message := "m" }
      1 0 1 3).2.2.1 (by decide) rfl,
   (phase_terminal_observation
      { phase := BackupPhase.failed, conditions := [], startedAt := some 1,
        completedAt := some 2, artifactLocation := "", observedGeneration := 1,
        message := "m" }
      { phase := RestorePhase.completed, conditions := [], startedAt := some 1,
        completedAt := some 2, observedGeneration := 1, message := "m" }
      0 1 1 3).2.2.2.2.2.1 (by decide)⟩

theorem string_append_ne_empty (s t : String) (h : s.length > 0) : s ++ t ≠ "" := by
  intro habs
  have hlen := congrArg String.length habs
  rw [String.length_append] at hlen
  simp at hlen
  omega

theorem storeArtifact_ok_ne_empty (storage : BackupStorageLocation)
    (kind ns name clusterIDv timestamp : String) (ioErr : Option String)
    (location : String)
    (h : storeArtifact storage kind ns name clusterIDv timestamp ioErr =
           Except.ok location) : location ≠ "" := by
  unfold storeArtifact at h
  cases ioErr with
  | some e => simp at h
  | none =>
    cases hb : storage.backend with
    | s3 bucket prefixPath =>
      rw [hb] at h
      simp only [Except.ok.injEq] at h
      subst h
      have h5 : ("s3://" ++ bucket ++ "/").length > 0 := by
        simp [String.length_append]
        exact Or.inr (by decide)
      simpa [String.append_assoc] using
        string_append_ne_empty ("s3://" ++ bucket ++ "/") _ h5
    | nfs server exportPath =>
      rw [hb] at h
      simp only [Except.ok.injEq] at h
      subst h
      have h6 : ("nfs://" ++ server).length > 0 := by
        simp [String.length_append]
        exact Or.inl (by decide)
      simpa [String.append_assoc] using
        string_append_ne_empty ("nfs://" ++ server) _ h6

/-- C2 counterexample: a Completed status with an empty ArtifactLocation is
reachable. A worker whose storage resolution fails writes Failed without
touching ArtifactLocation and then returns the nil status-update result, so
its job counts as succeeded; the next dispatcher reconcile observes the
succeeded job and flips the Failed phase to Completed while never writing
ArtifactLocation, yielding phase Completed with an empty location. -/
theorem artifact_location_counterexample :
    (reconcileObserveBackup
      (runBackupWorker
        { now := 2, timestamp := "20260101T000000Z", clusterIDv := "c1",
          storageRes := Except.error "no BackupStorageLocation found",
          mkTempErr := false, resourcesRes := Except.ok [],
          snapshotsRes := Except.ok [], metadataRes := Except.ok [],
          tarErr := none, storeErr := none }
        { kind := "Backup", name := "b1", namespaceName := "ns1",
          status := { phase := BackupPhase.running, conditions := [],
                      startedAt := some 1, completedAt := none,
                      artifactLocation := "", observedGeneration := 1,
                      message := "" } })
      1 0 1 3).phase = BackupPhase.completed ∧
    (reconcileObserveBackup
      (runBackupWorker
        { now := 2, timestamp := "20260101T000000Z", clusterIDv := "c1",
          storageRes := Except.error "no BackupStorageLocation found",
          mkTempErr := false, resourcesRes := Except.ok [],
          snapshotsRes := Except.ok [], metadataRes := Except.ok [],
          tarErr := none, storeErr := none }
        { kind := "Backup", name := "b1", namespaceName := "ns1",
          status := { phase := BackupPhase.running, conditions := [],
                      startedAt := some 1, completedAt := none,
                      artifactLocation := "", observedGeneration := 1,
                      message := "" } })
      1 0 1 3).artifactLocation = "" := by
  constructor <;> rfl

/-- C2 amended: along the worker's own status writes the claim holds — every
failure path preserves the prior ArtifactLocation and only the successful
completion path writes one, which is always non-empty — so a worker-produced
status (from a non-Completed start with empty location) has phase Completed
iff its ArtifactLocation is non-empty. The dispatcher's success observation,
however, sets Completed without writing ArtifactLocation, so the system-wide
"Completed implies non-empty location" direction fails (see the
counterexample). -/
theorem artifact_location_iff (env : BackupWorkerEnv) (backup : BackupObjectModel)
    (hloc : backup.status.artifactLocation = "")
    (hph : backup.status.phase ≠ BackupPhase.completed) :
    ((runBackupWorker env backup).phase = BackupPhase.completed ↔
      (runBackupWorker env backup).artifactLocation ≠ "") := by
  unfold runBackupWorker
  cases env.storageRes with
  | error e => simp [failedBackupStatus, hloc]
  | ok storage =>
    by_cases hmk : env.mkTempErr
    · simp [hmk, hloc, hph]
    · simp only [hmk, if_false]
      cases env.resourcesRes with
      | error e => simp [failedBackupStatus, hloc]
      | ok rbytes =>
        cases env.snapshotsRes with
        | error e => simp [failedBackupStatus, hloc]
        | ok sbytes =>
          cases env.metadataRes with
          | error e => simp [failedBackupStatus, hloc]
          | ok mbytes =>
            cases env.tarErr with
            | some e => simp [failedBackupStatus, hloc]
            | none =>
              cases hstore : storeArtifact storage backup.kind backup.namespaceName
                  backup.name env.clusterIDv env.timestamp env.storeErr with
              | error e => simp [failedBackupStatus, hloc]
              | ok location =>
                simpa using storeArtifact_ok_ne_empty _ _ _ _ _ _ _ _ hstore

/-- Witness for the amended C2: a fully successful worker run over an NFS
location ends Completed with a non-empty location. -/
theorem artifact_location_iff_witness :
    ((runBackupWorker
        { now := 2, timestamp := "20260101T000000Z", clusterIDv := "c1",
          storageRes := Except.ok
            { locName := "loc", isDefault := true,
              backend := StorageBackend.nfs "srv" "/export" },
          mkTempErr := false, resourcesRes := Except.ok [],
          snapshotsRes := Except.ok [], metadataRes := Except.ok [],
          tarErr := none, storeErr := none }
        { kind := "Backup", name := "b1", namespaceName := "ns1",
          status := { phase := BackupPhase.running, conditions := [],
                      startedAt := some 1, completedAt := none,
                      artifactLocation := "", observedGeneration := 1,
                      message := "" } }).phase = BackupPhase.completed ↔
      (runBackupWorker
        { now := 2, timestamp := "20260101T000000Z", clusterIDv := "c1",
          storageRes := Except.ok
            { locName := "loc", isDefault := true,
              backend := StorageBackend.nfs "srv" "/export" },
          mkTempErr := false, resourcesRes := Except.ok [],
          snapshotsRes := Except.ok [], metadataRes := Except.ok [],
          tarErr := none, storeErr := none }
        { kind := "Backup", name := "b1", namespaceName := "ns1",
          status := { phase := BackupPhase.running, conditions := [],
                      startedAt := some 1, completedAt := none,
                      artifactLocation := "", observedGeneration := 1,
                      message := "" } }).artifactLocation ≠ "") :=
  artifact_location_iff _ _ rfl (by decide)

/-- C5 counterexample: packing the three members with `resources.yaml` and
`snapshots.yaml` empty and unpacking again drops the zero-length members
(`extractTarGz` skips entries whose header size is zero), so they are not
present in the unpacked result. -/
theorem archive_roundtrip_counterexample :
    extractTarGz (writeTarGz
      [("metadata.json", [1]), ("resources.yaml", []), ("snapshots.yaml", [])]) =
      [("metadata.json", [1])] ∧
    lookupKey "resources.yaml"
      (extractTarGz (writeTarGz
        [("metadata.json", [1]), ("resources.yaml", []), ("snapshots.yaml", [])])) =
      none := by
  constructor <;> rfl

/-- C5 amended: packing the three members with `writeTarGz` writes every member
(zero-length included) and unpacking with `extractTarGz` restores every
non-empty member with byte-identical content, but members with empty content
are dropped by the unpacker, so the round trip equals the input with its empty
members removed. -/
theorem archive_roundtrip (m r s : List Nat) :
    extractTarGz (writeTarGz
      [("metadata.json", m), ("resources.yaml", r), ("snapshots.yaml", s)]) =
      List.filter (fun kv => kv.2 ≠ [])
        [("metadata.json", m), ("resources.yaml", r), ("snapshots.yaml", s)] := by
  cases m with
  | nil =>
    cases r with
    | nil =>
      cases s with
      | nil => rfl
      | cons c cs =>
        simp [writeTarGz, extractTarGz, setKey, List.filter]
    | cons b bs =>
      cases s with
      | nil => simp [writeTarGz, extractTarGz, setKey, List.filter]
      | cons c cs => simp [writeTarGz, extractTarGz, setKey, List.filter]
  | cons a as =>
    cases r with
    | nil =>
      cases s with
      | nil => simp [writeTarGz, extractTarGz, setKey, List.filter]
      | cons c cs => simp [writeTarGz, extractTarGz, setKey, List.filter]
    | cons b bs =>
      cases s with
      | nil => simp [writeTarGz, extractTarGz, setKey, List.filter]
      | cons c cs => simp [writeTarGz, extractTarGz, setKey, List.filter]

/-- C8: a namespace-scoped `Backup` resolves to exactly its own namespace; a
cluster-scoped request resolves to the explicit included list if non-empty,
otherwise every cluster namespace, with every excluded namespace removed, and
the result sorted ascending. -/
theorem namespace_scope_resolution (kind ownNamespace : String)
    (sel : NamespaceSelector) (clusterNamespaces : List String) :
    (resolveNamespaces "Backup" ownNamespace (some sel) clusterNamespaces = [ownNamespace]) ∧
    (resolveNamespaces "Backup" ownNamespace none clusterNamespaces = [ownNamespace]) ∧
    (kind ≠ "Backup" →
      (List.Sorted (· ≤ ·)
        (resolveNamespaces kind ownNamespace (some sel) clusterNamespaces) ∧
       List.Sorted (· ≤ ·)
        (resolveNamespaces kind ownNamespace none clusterNamespaces) ∧
       (∀ a, a ∈ resolveNamespaces kind ownNamespace (some sel) clusterNamespaces ↔
         (a ∈ (if sel.included ≠ [] then sel.included else clusterNamespaces) ∧
          a ∉ sel.excluded)) ∧
       (∀ a, a ∈ resolveNamespaces kind ownNamespace none clusterNamespaces ↔
         a ∈ clusterNamespaces))) := by
  refine ⟨rfl, rfl, ?_⟩
  intro hk
  refine ⟨?_, ?_, ?_, ?_⟩
  · unfold resolveNamespaces
    simp only [if_neg hk]
    exact List.sorted_mergeSort' _
  · unfold resolveNamespaces
    simp only [if_neg hk]
    exact List.sorted_mergeSort' _
  · intro a
    unfold resolveNamespaces
    simp only [if_neg hk]
    rw [(List.mergeSort_perm _ _).mem_iff]
    by_cases hinc : sel.included = [] <;> by_cases hex : sel.excluded = [] <;>
      simp [hinc, hex, List.mem_filter, List.length_pos]
  · intro a
    unfold resolveNamespaces
    simp only [if_neg hk]
    exact (List.mergeSort_perm _ _).mem_iff

/-- Witness for C8 at a concrete cluster-scoped request. -/
theorem namespace_scope_resolution_witness :
    List.Sorted (· ≤ ·)
      (resolveNamespaces "ClusterBackup" ""
        (some { included := ["b", "a"], excluded := ["a"] }) ["c"]) ∧
    ("b" ∈ resolveNamespaces "ClusterBackup" ""
        (some { included := ["b", "a"], excluded := ["a"] }) ["c"] ↔
      ("b" ∈ (if (["b", "a"] : List String) ≠ [] then ["b", "a"] else ["c"]) ∧
       "b" ∉ (["a"] : List String))) :=
  ⟨((namespace_scope_resolution "ClusterBackup" ""
      { included := ["b", "a"], excluded := ["a"] } ["c"]).2.2 (by decide)).1,
   (((namespace_scope_resolution "ClusterBackup" ""
      { included := ["b", "a"], excluded := ["a"] } ["c"]).2.2 (by decide)).2.2.1) "b"⟩

theorem exportSortResources_pairwise (docs : List UObj) :
    (exportSortResources docs).Pairwise
      (fun a b => resourcePriority a ≤ resourcePriority b) := by
  unfold exportSortResources
  have hp := @List.sorted_mergeSort UObj
    (fun a b => decide (resourcePriority a ≤ resourcePriority b))
    (fun a b c h1 h2 => by
      simp only [decide_eq_true_eq] at *
      omega)
    (fun a b => by
      simp only [Bool.or_eq_true, decide_eq_true_eq]
      omega)
    docs
  refine hp.imp ?_
  intro a b h
  simpa using h

/-- C6: the export engine and the apply engine sort with the identical priority
function, the sorted output is non-decreasing in priority, it is a permutation
of the input, and consequently in any sorted output no ConfigMap precedes a
Namespace, no Deployment precedes a ConfigMap, and no Deployment precedes a
Namespace — so an input containing all three always comes out in the order
Namespace, ConfigMap, Deployment. -/
theorem priority_sort_order (docs : List UObj) (i j : Nat)
    (hj : j < (exportSortResources docs).length) (hij : i < j) :
    exportSortResources = applySortResources ∧
    List.Perm (exportSortResources docs) docs ∧
    resourcePriority ((exportSortResources docs).get ⟨i, lt_trans hij hj⟩) ≤
      resourcePriority ((exportSortResources docs).get ⟨j, hj⟩) ∧
    ¬(getKind ((exportSortResources docs).get ⟨i, lt_trans hij hj⟩) = "ConfigMap" ∧
      getKind ((exportSortResources docs).get ⟨j, hj⟩) = "Namespace") ∧
    ¬(getKind ((exportSortResources docs).get ⟨i, lt_trans hij hj⟩) = "Deployment" ∧
      getKind ((exportSortResources docs).get ⟨j, hj⟩) = "ConfigMap") ∧
    ¬(getKind ((exportSortResources docs).get ⟨i, lt_trans hij hj⟩) = "Deployment" ∧
      getKind ((exportSortResources docs).get ⟨j, hj⟩) = "Namespace") := by
  have hpair := exportSortResources_pairwise docs
  have hle := List.pairwise_iff_get.mp hpair ⟨i, lt_trans hij hj⟩ ⟨j, hj⟩ hij
  refine ⟨rfl, List.mergeSort_perm docs _, hle, ?_, ?_, ?_⟩
  · rintro ⟨h1, h2⟩
    unfold resourcePriority at hle
    rw [h1, h2] at hle
    simp at hle
  · rintro ⟨h1, h2⟩
    unfold resourcePriority at hle
    rw [h1, h2] at hle
    simp at hle
  · rintro ⟨h1, h2⟩
    unfold resourcePriority at hle
    rw [h1, h2] at hle
    simp at hle

theorem samplePriorityDocs_sorted_length :
    (exportSortResources samplePriorityDocs).length = 3 := by
  unfold exportSortResources
  exact (List.mergeSort_perm _ _).length_eq

/-- Witness for C6: the theorem applied to the concrete document set. -/
theorem priority_sort_order_witness :
    exportSortResources = applySortResources ∧
    List.Perm (exportSortResources samplePriorityDocs) samplePriorityDocs := by
  have hj : 1 < (exportSortResources samplePriorityDocs).length := by
    rw [samplePriorityDocs_sorted_length]
    decide
  exact ⟨(priority_sort_order samplePriorityDocs 0 1 hj (by decide)).1,
         (priority_sort_order samplePriorityDocs 0 1 hj (by decide)).2.1⟩

theorem resourceVersion_cleared (o : UObj) :
    match lookupKey "metadata" (setResourceVersion "" o) with
    | some (UVal.map m) => lookupKey "resourceVersion" m = none
    | _ => True := by
  unfold setResourceVersion removeNested2
  cases h : lookupKey "metadata" o with
  | none => simp [h]
  | some v =>
    cases v with
    | str s => simp [h]
    | leaf t => simp [h]
    | map m => simp [h, lookupKey_setKey, lookupKey_eraseKey]

/-- C9: the restore apply of a single document is an idempotent upsert with
fail-fast error propagation. With the namespace ensured: an unmappable type is
skipped without error; otherwise the version token is cleared before creation
(the created object carries no resourceVersion); a successful creation yields
exactly one create; an already-exists conflict fetches the current version
token, attaches it and performs a full replace; any other creation error, any
fetch error and any replace error abort; a denylisted kind is skipped; and the
loop aborts the entire restore on the first document error. -/
theorem apply_upsert (env : DocEnv) (mapping : Option (List (String × String)))
    (defaultNamespace : String) (obj objS : UObj) (rest : List (UObj × DocEnv))
    (h1 : List.isEmpty obj = false)
    (h2 : shouldSkipKind (getKind obj) = false)
    (h3 : env.ensureNamespaceErr = none) :
    (let obj1 := sanitizeObject obj
     let obj2 := if getNamespace obj1 ≠ ""
       then setNamespace
         (computeTargetNamespace (getNamespace obj1) defaultNamespace mapping) obj1
       else obj1
     let obj3 := setResourceVersion "" obj2
     (env.restMapping = none →
        applyOneDocument env mapping defaultNamespace obj = Except.ok []) ∧
     (env.restMapping ≠ none →
       ((env.createResult = CreateResult.ok →
          applyOneDocument env mapping defaultNamespace obj =
            Except.ok [ApplyAction.created obj3]) ∧
        (∀ e, env.createResult = CreateResult.otherErr e →
          applyOneDocument env mapping defaultNamespace obj = Except.error e) ∧
        (env.createResult = CreateResult.alreadyExists →
          ((∀ g, env.getExisting = Except.error g →
             applyOneDocument env mapping defaultNamespace obj = Except.error g) ∧
           (∀ rv, env.getExisting = Except.ok rv →
             ((env.updateErr = none →
                applyOneDocument env mapping defaultNamespace obj =
                  Except.ok [ApplyAction.replaced (setResourceVersion rv obj3)]) ∧
              (∀ e, env.updateErr = some e →
                applyOneDocument env mapping defaultNamespace obj =
                  Except.error e))))))) ∧
     (match lookupKey "metadata" obj3 with
      | some (UVal.map m) => lookupKey "resourceVersion" m = none
      | _ => True)) ∧
    (shouldSkipKind (getKind objS) = true →
       applyOneDocument env mapping defaultNamespace objS = Except.ok []) ∧
    (∀ e, applyOneDocument env mapping defaultNamespace obj = Except.error e →
       applyResourcesLoop mapping defaultNamespace ((obj, env) :: rest) =
         Except.error e) := by
  refine ⟨⟨?_, ?_, resourceVersion_cleared _⟩, ?_, ?_⟩
  · intro hmap
    unfold applyOneDocument
    by_cases hns : getNamespace (sanitizeObject obj) = "" <;>
      simp [h1, h2, h3, hmap, hns]
  · intro hmap
    cases hm : env.restMapping with
    | none => exact absurd hm hmap
    | some b =>
      refine ⟨?_, ?_, ?_⟩
      · intro hc
        unfold applyOneDocument
        by_cases hns : getNamespace (sanitizeObject obj) = "" <;>
          simp [h1, h2, h3, hm, hc, hns]
      · intro e hc
        unfold applyOneDocument
        by_cases hns : getNamespace (sanitizeObject obj) = "" <;>
          simp [h1, h2, h3, hm, hc, hns]
      · intro hc
        refine ⟨?_, ?_⟩
        · intro g hg
          unfold applyOneDocument
          by_cases hns : getNamespace (sanitizeObject obj) = "" <;>
            simp [h1, h2, h3, hm, hc, hg, hns]
        · intro rv hrv
          refine ⟨?_, ?_⟩
          · intro hu
            unfold applyOneDocument
            by_cases hns : getNamespace (sanitizeObject obj) = "" <;>
              simp [h1, h2, h3, hm, hc, hrv, hu, hns]
          · intro e hu
            unfold applyOneDocument
            by_cases hns : getNamespace (sanitizeObject obj) = "" <;>
              simp [h1, h2, h3, hm, hc, hrv, hu, hns]
  · intro hskip
    unfold applyOneDocument
    by_cases hE : List.isEmpty objS <;> simp [hE, hskip]
  · intro e he
    unfold applyResourcesLoop
    simp [he]

/-- Witness for C9: a ConfigMap document in namespace `a` with a stale version
token, applied against a cluster where it already exists with version token 42,
is replaced in the remapped namespace with the fetched token attached. -/
theorem apply_upsert_witness :
    applyOneDocument
      { ensureNamespaceErr := none, restMapping := some true,
        createResult := CreateResult.alreadyExists,
        getExisting := Except.ok "42", updateErr := none }
      (some [("a", "m")]) "d"
      [("kind", UVal.str "ConfigMap"),
       ("metadata", UVal.map [("namespace", UVal.str "a"),
                              ("resourceVersion", UVal.str "7")])] =
      Except.ok [ApplyAction.replaced
        [("kind", UVal.str "ConfigMap"),
         ("metadata", UVal.map [("namespace", UVal.str "m"),
                                ("resourceVersion", UVal.str "42")])]] :=
  ((((apply_upsert
      { ensureNamespaceErr := none, restMapping := some true,
        createResult := CreateResult.alreadyExists,
        getExisting := Except.ok "42", updateErr := none }
      (some [("a", "m")]) "d"
      [("kind", UVal.str "ConfigMap"),
       ("metadata", UVal.map [("namespace", UVal.str "a"),
                              ("resourceVersion", UVal.str "7")])]
      [("kind", UVal.str "Pod")] [] rfl rfl rfl).1.2.1
    (by decide)).2.2 rfl).2 "42" rfl).1 rfl

theorem sanitizeMetadata_clean (m : List (String × UVal)) :
    MetaClean (sanitizeMetadata m) := by
  unfold sanitizeMetadata MetaClean
  cases h : lookupKey "annotations"
      (eraseKey "creationTimestamp" (eraseKey "selfLink" (eraseKey "managedFields"
        (eraseKey "generation" (eraseKey "resourceVersion" (eraseKey "uid" m)))))) with
  | none => simp [h, lookupKey_eraseKey]
  | some v =>
    cases v with
    | str s => simp [h, lookupKey_eraseKey]
    | leaf t => simp [h, lookupKey_eraseKey]
    | map a => simp [h, lookupKey_eraseKey, lookupKey_setKey]

theorem sanitizeMetadata_of_clean {m : List (String × UVal)} (h : MetaClean m) :
    sanitizeMetadata m = m := by
  obtain ⟨h1, h2, h3, h4, h5, h6, h7⟩ := h
  unfold sanitizeMetadata
  simp only [eraseKey_of_lookup_none h1, eraseKey_of_lookup_none h2,
             eraseKey_of_lookup_none h3, eraseKey_of_lookup_none h4,
             eraseKey_of_lookup_none h5, eraseKey_of_lookup_none h6]
  cases ha : lookupKey "annotations" m with
  | none => rfl
  | some v =>
    cases v with
    | str s => rfl
    | leaf t => rfl
    | map a =>
      rw [ha] at h7
      have h7' : lookupKey lastAppliedKey a = none := h7
      show setKey "annotations" (UVal.map (eraseKey lastAppliedKey a)) m = m
      rw [eraseKey_of_lookup_none h7']
      exact setKey_of_lookup_some ha

theorem sanitizeObject_eq_stages (o : UObj) :
    sanitizeObject o = sanitizeStage3 (sanitizeStage2 (eraseKey "status" o)) := rfl

theorem lookupKey_removeNested2 (k f1 f2 : String) (o : UObj) (h : k ≠ f1) :
    lookupKey k (removeNested2 f1 f2 o) = lookupKey k o := by
  unfold removeNested2
  cases hl : lookupKey f1 o with
  | none => rfl
  | some v =>
    cases v with
    | str s => rfl
    | leaf t => rfl
    | map mm =>
      rw [lookupKey_setKey]
      simp [h]

theorem specClean_triple (o2 : UObj) :
    SpecClean (removeNested2 "spec" "healthCheckNodePort"
      (removeNested2 "spec" "clusterIPs" (removeNested2 "spec" "clusterIP" o2))) := by
  unfold SpecClean removeNested2
  cases hsp : lookupKey "spec" o2 with
  | none => simp [hsp]
  | some v =>
    cases v with
    | str s => simp [hsp]
    | leaf t => simp [hsp]
    | map sp => simp [hsp, lookupKey_setKey, lookupKey_eraseKey]

theorem removeNestedSpec_of_specClean {o : UObj} (h : SpecClean o) :
    removeNested2 "spec" "healthCheckNodePort"
      (removeNested2 "spec" "clusterIPs" (removeNested2 "spec" "clusterIP" o)) = o := by
  unfold SpecClean at h
  cases hsp : lookupKey "spec" o with
  | none => simp [removeNested2, hsp]
  | some v =>
    cases v with
    | str s => simp [removeNested2, hsp]
    | leaf t => simp [removeNested2, hsp]
    | map sp =>
      rw [hsp] at h
      obtain ⟨hip, hips, hhc⟩ := h
      simp [removeNested2, hsp, eraseKey_of_lookup_none hip,
            eraseKey_of_lookup_none hips, eraseKey_of_lookup_none hhc,
            setKey_of_lookup_some hsp]

theorem sanitizeStage2_status (o1 : UObj) :
    lookupKey "status" (sanitizeStage2 o1) = lookupKey "status" o1 := by
  unfold sanitizeStage2
  cases hm : lookupKey "metadata" o1 with
  | none => rfl
  | some v =>
    cases v with
    | str s => rfl
    | leaf t => rfl
    | map m =>
      rw [lookupKey_setKey]
      simp

theorem sanitizeStage2_metadata_clean (o1 : UObj) :
    match lookupKey "metadata" (sanitizeStage2 o1) with
    | some (UVal.map m) => MetaClean m
    | _ => True := by
  unfold sanitizeStage2
  cases hm : lookupKey "metadata" o1 with
  | none => simp [hm]
  | some v =>
    cases v with
    | str s => simp [hm]
    | leaf t => simp [hm]
    | map m =>
      simp [lookupKey_setKey]
      exact sanitizeMetadata_clean m

theorem sanitizeStage2_of_clean {o1 : UObj}
    (hmd : match lookupKey "metadata" o1 with
           | some (UVal.map m) => MetaClean m
           | _ => True) :
    sanitizeStage2 o1 = o1 := by
  unfold sanitizeStage2
  cases hm : lookupKey "metadata" o1 with
  | none => rfl
  | some v =>
    cases v with
    | str s => rfl
    | leaf t => rfl
    | map m =>
      rw [hm] at hmd
      have hmd' : MetaClean m := hmd
      show setKey "metadata" (UVal.map (sanitizeMetadata m)) o1 = o1
      rw [sanitizeMetadata_of_clean hmd']
      exact setKey_of_lookup_some hm

theorem sanitizeStage3_of_clean {o2 : UObj}
    (hsvc : getKind o2 = "Service" → SpecClean o2) :
    sanitizeStage3 o2 = o2 := by
  unfold sanitizeStage3
  by_cases hs : getKind o2 = "Service"
  · rw [if_pos hs]
    exact removeNestedSpec_of_specClean (hsvc hs)
  · rw [if_neg hs]

theorem objClean_stage3 (o2 : UObj)
    (hst : lookupKey "status" o2 = none)
    (hmd : match lookupKey "metadata" o2 with
           | some (UVal.map m) => MetaClean m
           | _ => True) :
    ObjClean (sanitizeStage3 o2) := by
  unfold sanitizeStage3
  by_cases hs : getKind o2 = "Service"
  · rw [if_pos hs]
    refine ⟨?_, ?_, fun _ => specClean_triple o2⟩
    · rw [lookupKey_removeNested2 _ _ _ _ (by decide),
          lookupKey_removeNested2 _ _ _ _ (by decide),
          lookupKey_removeNested2 _ _ _ _ (by decide)]
      exact hst
    · rw [lookupKey_removeNested2 _ _ _ _ (by decide),
          lookupKey_removeNested2 _ _ _ _ (by decide),
          lookupKey_removeNested2 _ _ _ _ (by decide)]
      exact hmd
  · rw [if_neg hs]
    exact ⟨hst, hmd, fun hsvc => absurd hsvc hs⟩

theorem sanitizeObject_clean (o : UObj) : ObjClean (sanitizeObject o) := by
  rw [sanitizeObject_eq_stages]
  refine objClean_stage3 _ ?_ (sanitizeStage2_metadata_clean _)
  rw [sanitizeStage2_status, lookupKey_eraseKey]
  simp

theorem sanitizeObject_of_clean {o : UObj} (h : ObjClean o) : sanitizeObject o = o := by
  obtain ⟨hst, hmd, hsvc⟩ := h
  rw [sanitizeObject_eq_stages, eraseKey_of_lookup_none hst,
      sanitizeStage2_of_clean hmd, sanitizeStage3_of_clean hsvc]

/-- C7: sanitization is idempotent — applying `sanitizeObject` twice yields the
same document as applying it once, for every resource document. -/
theorem sanitize_idempotent (o : UObj) :
    sanitizeObject (sanitizeObject o) = sanitizeObject o :=
  sanitizeObject_of_clean (sanitizeObject_clean o)
